import Mathlib

/-!
Verification development for the CookBook recipe-sharing backend's
search-and-ranking core (search service, index maintenance, trend ranker).

The TypeScript services are shallowly embedded as pure Lean functions:
* the Elasticsearch backend is an external collaborator, modelled by an
  `Except` value — either the index's current document list (call succeeds
  and the engine evaluates the query the service built) or a thrown error;
* the Prisma primary store is modelled by the list of recipes it holds;
* JavaScript numbers are modelled by `ℚ` (timestamps, scores, ratings).
-/

namespace CookBook

/-! ## String helpers

`containsInsensitive hay needle` models Prisma's
`{ contains: needle, mode: 'insensitive' }` — case-insensitive substring —
and is also used as the abstraction of Elasticsearch full-text relevance
matching (fuzziness/stemming of the external engine abstracted away). -/

/-- JS `String.prototype.toLowerCase` (ASCII-level model). -/
def strToLower (s : String) : String := ⟨s.data.map Char.toLower⟩

/-- JS `String.prototype.toUpperCase` (ASCII-level model). -/
def strToUpper (s : String) : String := ⟨s.data.map Char.toUpper⟩

/-- Substring test on character lists: `needle` occurs contiguously in `hay`. -/
def listContains (needle hay : List Char) : Bool :=
  match hay with
  | [] => needle.isEmpty
  | _ :: t => needle.isPrefixOf hay || listContains needle t

/-- Case-insensitive substring match. -/
def containsInsensitive (hay needle : String) : Bool :=
  listContains (strToLower needle).data (strToLower hay).data

/-! ## Descending sort by a rational key

Models both Prisma's `orderBy: { createdAt: 'desc' }` and the JS
`sort((a, b) => b.trendScore - a.trendScore)`; the concrete sorting
algorithm is immaterial, only the key order and stability. -/

/-- Insert `x` in front of the first element with a strictly smaller key. -/
def insertDesc (key : α → ℚ) (x : α) : List α → List α
  | [] => [x]
  | y :: t => if key y < key x then x :: y :: t else y :: insertDesc key x t

/-- Stable insertion sort, descending by `key`. -/
def sortDesc (key : α → ℚ) : List α → List α
  | [] => []
  | x :: t => insertDesc key x (sortDesc key t)

/-! ## Data model (from the Prisma schema as used by the services) -/

/-- An ingredient row; only the `name` relation field is read by the core. -/
structure Ingredient where
  name : String
  deriving Repr, DecidableEq

/-- A recipe row of the Primary Store, with the nested relations the
search/trending code reads (`ratings` as the list of rating values,
`comments` reduced to its count since only `_count.comments` is read). -/
structure Recipe where
  id : String
  title : String
  description : String
  ingredients : List Ingredient
  instructions : List String
  tags : List String
  difficulty : String
  cuisine : Option String
  prepTime : Option Nat
  cookTime : Option Nat
  servings : Option Nat
  authorId : String
  isPublic : Bool
  createdAt : ℚ
  ratings : List ℚ
  commentsCount : Nat
  deriving Repr, DecidableEq

/-- The Elasticsearch document shape written by `indexRecipe` /
`indexAllRecipes` (ingredient names and instruction steps joined). -/
structure EsDoc where
  id : String
  title : String
  description : String
  ingredients : String
  instructions : String
  tags : List String
  difficulty : String
  cuisine : Option String
  prepTime : Option Nat
  cookTime : Option Nat
  servings : Option Nat
  authorId : String
  isPublic : Bool
  createdAt : ℚ
  updatedAt : ℚ
  deriving Repr, DecidableEq

/-- `indexRecipe`'s `recipeData` projection of a recipe into its document. -/
def recipeToDoc (r : Recipe) : EsDoc :=
  { id := r.id
    title := r.title
    description := r.description
    ingredients := String.intercalate " " (r.ingredients.map (·.name))
    instructions := String.intercalate " " r.instructions
    tags := r.tags
    difficulty := r.difficulty
    cuisine := r.cuisine
    prepTime := r.prepTime
    cookTime := r.cookTime
    servings := r.servings
    authorId := r.authorId
    isPublic := r.isPublic
    createdAt := r.createdAt
    updatedAt := r.createdAt }

/-- The filter object accepted by `searchRecipes` /
`searchRecipesInDatabase` (optional arrays modelled as possibly-empty
lists: the code skips them when absent or empty alike). -/
structure SearchFilters where
  difficulty : Option String := none
  cuisine : Option String := none
  tags : List String := []
  ingredients : List String := []
  minRating : Option ℚ := none
  maxPrepTime : Option Nat := none
  maxCookTime : Option Nat := none
  deriving Repr, DecidableEq

/-- A returned recipe item.  The Elasticsearch path returns only the
`_source` fields (rating/comment aggregates absent, kept at defaults);
the database path returns `formatRecipe` output which fills them. -/
structure SearchItem where
  id : String
  title : String
  description : String
  prepTime : Option Nat
  cookTime : Option Nat
  servings : Option Nat
  difficulty : String
  cuisine : Option String
  tags : List String
  authorId : String
  isPublic : Bool
  averageRating : Option ℚ := none
  ratingsCount : Nat := 0
  commentsCount : Nat := 0
  deriving Repr, DecidableEq

/-- The `{ recipes, total }` result shape of the search operations. -/
structure SearchResult where
  items : List SearchItem
  total : Nat
  deriving Repr, DecidableEq

/-- The `_source` projection of an index hit
(`['id','title','description','prepTime','cookTime','servings','difficulty','cuisine','tags','authorId','isPublic']`). -/
def esHitToItem (d : EsDoc) : SearchItem :=
  { id := d.id
    title := d.title
    description := d.description
    prepTime := d.prepTime
    cookTime := d.cookTime
    servings := d.servings
    difficulty := d.difficulty
    cuisine := d.cuisine
    tags := d.tags
    authorId := d.authorId
    isPublic := d.isPublic }

/-- `SearchService.formatRecipe`: spreads the recipe row and attaches
`averageRating` (null when unrated) and the relation counts. -/
def formatRecipe (r : Recipe) : SearchItem :=
  { id := r.id
    title := r.title
    description := r.description
    prepTime := r.prepTime
    cookTime := r.cookTime
    servings := r.servings
    difficulty := r.difficulty
    cuisine := r.cuisine
    tags := r.tags
    authorId := r.authorId
    isPublic := r.isPublic
    averageRating :=
      if r.ratings.isEmpty then none else some (r.ratings.sum / r.ratings.length)
    ratingsCount := r.ratings.length
    commentsCount := r.commentsCount }

/-! ## JavaScript truthiness of optional filter fields

`if (filters.maxPrepTime)` skips the filter when the field is absent or
`0`; `if (filters.difficulty)` skips it when absent or the empty string. -/

/-- JS truthiness of an optional string. -/
def strTruthy (o : Option String) : Bool :=
  o.getD "" != ""

/-- A `{ range: { lte: bound } }` / Prisma `{ lte: bound }` filter under JS
truthiness: skipped when the bound is absent or `0`; a row whose field is
null never satisfies an applied bound (SQL NULL / unindexed field). -/
def lteFilter (bound : Option Nat) (value : Option Nat) : Bool :=
  match bound with
  | none => true
  | some t =>
    if t = 0 then true
    else match value with
      | none => false
      | some v => v ≤ t

/-! ## Query Engine — `SearchService.searchRecipes` and its fallback

The Elasticsearch call outcome is `Except String (List EsDoc)`: `ok docs`
is a reachable backend holding `docs` (the engine then evaluates the query
the service built), `error e` is a thrown client/transport error caught by
the service's `try/catch`.  Relevance ordering (`sort: [{ _score: 'desc' }]`)
is abstracted to index order — no claim concerns ranking order — and the
engine's analyzed/fuzzy text match is abstracted to case-insensitive
substring. -/

/-- The `multi_match` `should` clause over
`['title^3', 'description^2', 'ingredients^1.5']` (external-engine match
abstracted; boosts affect only ordering). -/
def esTextMatch (q : String) (d : EsDoc) : Bool :=
  containsInsensitive d.title q || containsInsensitive d.description q ||
    containsInsensitive d.ingredients q

/-- The conjunction of `must` clauses built by `searchRecipes`:
`term difficulty`, `term cuisine`, `terms tags`, the ingredient
`term ingredients.keyword` disjunction (exact keyword match on the joined
lowercased string), the two `range ... lte` bounds, and the always-pushed
`term { isPublic: true }`. -/
def esMust (f : SearchFilters) (d : EsDoc) : Bool :=
  (if strTruthy f.difficulty then d.difficulty == f.difficulty.getD "" else true) &&
  (if strTruthy f.cuisine then d.cuisine == f.cuisine else true) &&
  (if f.tags.isEmpty then true else f.tags.any (fun t => d.tags.contains t)) &&
  (if f.ingredients.isEmpty then true
   else f.ingredients.any (fun ing => d.ingredients == strToLower ing)) &&
  lteFilter f.maxPrepTime d.prepTime &&
  lteFilter f.maxCookTime d.cookTime &&
  d.isPublic

/-- The whole `bool` query of `searchRecipes`: all `must` clauses, and —
since `minimum_should_match` is `1` exactly when `query` is truthy — the
text clause when the query string is non-empty. -/
def esQuery (q : String) (f : SearchFilters) (d : EsDoc) : Bool :=
  esMust f d && (if q == "" then true else esTextMatch q d)

/-- Documents of the index matching the query (the full hit set;
`track_total_hits` makes `total` count all of them). -/
def esMatches (q : String) (f : SearchFilters) (idx : List EsDoc) : List EsDoc :=
  idx.filter (esQuery q f)

/-- The Prisma `where` object of `searchRecipesInDatabase`: implicit
`isPublic: true`, the case-insensitive `contains` OR over title/description
when the query is non-empty, and the structured filters (note `cuisine` is
a `contains` here, unlike the exact `term` on the index path; `minRating`
is accepted in the filter type but never used). -/
def dbWhere (q : String) (f : SearchFilters) (r : Recipe) : Bool :=
  r.isPublic &&
  (if q == "" then true
   else containsInsensitive r.title q || containsInsensitive r.description q) &&
  (if strTruthy f.difficulty then r.difficulty == f.difficulty.getD "" else true) &&
  (if strTruthy f.cuisine then containsInsensitive (r.cuisine.getD "") (f.cuisine.getD "") else true) &&
  (if f.tags.isEmpty then true else f.tags.any (fun t => r.tags.contains t)) &&
  (if f.ingredients.isEmpty then true
   else r.ingredients.any (fun i => f.ingredients.any (fun s => strToLower i.name == strToLower s))) &&
  lteFilter f.maxPrepTime r.prepTime &&
  lteFilter f.maxCookTime r.cookTime

/-- Rows matching the fallback query, ordered `createdAt` descending. -/
def dbMatches (q : String) (f : SearchFilters) (db : List Recipe) : List Recipe :=
  (sortDesc (fun r => r.createdAt) db).filter (dbWhere q f)

/-- `SearchService.searchRecipesInDatabase` — the Prisma fallback: a
`findMany` page (`skip`/`take` passed straight through, NOT clamped) of
`formatRecipe`d rows, and a `count` over the same `where`. -/
def searchRecipesInDatabase (db : List Recipe) (q : String) (f : SearchFilters)
    (skip take : Nat) : SearchResult :=
  let ms := dbMatches q f db
  { items := ((ms.drop skip).take take).map formatRecipe
    total := ms.length }

/-- `SearchService.searchRecipes`: try the index (`from: skip`,
`size: Math.min(take, 50)`, `total` from `track_total_hits`); on any thrown
error, fall back to the database query. -/
def searchRecipes (es : Except String (List EsDoc)) (db : List Recipe)
    (q : String) (f : SearchFilters) (skip take : Nat) : SearchResult :=
  match es with
  | .ok idx =>
    let hits := esMatches q f idx
    { items := ((hits.drop skip).take (min take 50)).map esHitToItem
      total := hits.length }
  | .error _ => searchRecipesInDatabase db q f skip take

/-- The per-ingredient `multi_match` over `['ingredients^2', 'title^1.5']`
in `searchByIngredients` (external-engine match abstracted as above). -/
def esIngTextMatch (ing : String) (d : EsDoc) : Bool :=
  containsInsensitive d.ingredients ing || containsInsensitive d.title ing

/-- The `bool` query of `searchByIngredients`: `term { isPublic: true }`
and at least one ingredient clause (`minimum_should_match: 1`). -/
def esIngQuery (ings : List String) (d : EsDoc) : Bool :=
  d.isPublic && ings.any (fun ing => esIngTextMatch ing d)

/-- Rows matching `searchByIngredients`' fallback `where` (`isPublic: true`
and some ingredient relation whose name is case-insensitively `in` the
given list), ordered `createdAt` descending. -/
def dbIngMatches (ings : List String) (db : List Recipe) : List Recipe :=
  (sortDesc (fun r => r.createdAt) db).filter
    (fun r => r.isPublic &&
      r.ingredients.any (fun i => ings.any (fun s => strToLower i.name == strToLower s)))

/-- `SearchService.searchByIngredients`: index query with the same
pagination as `searchRecipes`; on a thrown error, the inline Prisma
fallback (`findMany` + `count`, `take` again passed through unclamped). -/
def searchByIngredients (es : Except String (List EsDoc)) (db : List Recipe)
    (ings : List String) (skip take : Nat) : SearchResult :=
  match es with
  | .ok idx =>
    let hits := idx.filter (esIngQuery ings)
    { items := ((hits.drop skip).take (min take 50)).map esHitToItem
      total := hits.length }
  | .error _ =>
    let ms := dbIngMatches ings db
    { items := ((ms.drop skip).take take).map formatRecipe
      total := ms.length }

/-! ## Index Maintainer — `deleteRecipe` and the deletion mutation flow -/

/-- Errors surfaced by the Elasticsearch client / the services. -/
inductive EsError
  | notFound
  deriving Repr, DecidableEq

/-- The Elasticsearch client's `delete` API call: removes the document with
the given id; per the client's documented behaviour a DELETE of a
non-existent document is a 404 response, thrown as a `ResponseError`. -/
def esDelete (idx : List EsDoc) (id : String) : Except EsError (List EsDoc) :=
  if idx.any (fun d => d.id == id) then .ok (idx.filter (fun d => d.id != id))
  else .error .notFound

/-- `SearchService.deleteRecipe`: calls the client's `delete`; the `catch`
block logs the error and rethrows it (`throw error`). -/
def deleteRecipe (idx : List EsDoc) (id : String) : Except EsError (List EsDoc) :=
  match esDelete idx id with
  | .ok idx2 => .ok idx2
  | .error e => .error e

/-- The combined state of the Primary Store and the search index. -/
structure SystemState where
  db : List Recipe
  idx : List EsDoc
  deriving Repr, DecidableEq

/-- Errors thrown by `RecipesService.remove`. -/
inductive RemoveError
  | notFound
  | forbidden
  deriving Repr, DecidableEq

/-- `RecipesService.remove` — the full recipe-deletion mutation behind the
`deleteRecipe` GraphQL resolver: `findUnique` (404 if absent), the
author-only guard, then `prisma.recipe.delete`.  It never invokes
`SearchService.deleteRecipe`, so the index component of the state is
returned untouched. -/
def RecipesService.remove (st : SystemState) (id userId : String) :
    Except RemoveError (SystemState × Bool) :=
  match st.db.find? (fun r => r.id == id) with
  | none => .error .notFound
  | some r =>
    if r.authorId != userId then .error .forbidden
    else .ok ({ db := st.db.filter (fun r => r.id != id), idx := st.idx }, true)

/-! ## Trend Ranker — `AiService.getTrendingRecipes` -/

/-- `daysSinceCreated`: recipe age in fractional days,
`(now - createdAt) / (1000 * 60 * 60 * 24)` over millisecond timestamps. -/
def daysSinceCreated (now createdAt : ℚ) : ℚ :=
  (now - createdAt) / (1000 * 60 * 60 * 24)

/-- `avgRating`: mean of the rating values, `0` when there are none. -/
def avgRating (r : Recipe) : ℚ :=
  if r.ratings.isEmpty then 0 else r.ratings.sum / r.ratings.length

/-- `engagementScore`: `_count.ratings + _count.comments`, a raw count. -/
def engagementScore (r : Recipe) : ℚ :=
  (r.ratings.length : ℚ) + (r.commentsCount : ℚ)

/-- `recencyScore`: `Math.max(0, 30 - daysSinceCreated) / 30`. -/
def recencyScore (now : ℚ) (r : Recipe) : ℚ :=
  max 0 (30 - daysSinceCreated now r.createdAt) / 30

/-- `AiService.determineTrendCategory`: the first-matching-rule `if/else`
chain over the tag set, then the rating/engagement/recency rules. -/
def determineTrendCategory (r : Recipe) (avg eng days : ℚ) : String :=
  let tags := r.tags
  if tags.contains "air-fryer" || tags.contains "air-frying" then "Air Frying"
  else if tags.contains "sourdough" || tags.contains "fermentation" then "Sourdough Baking"
  else if tags.contains "plant-based" || tags.contains "vegan" then "Plant-Based Cooking"
  else if tags.contains "keto" || tags.contains "low-carb" then "Keto Diet"
  else if tags.contains "instant-pot" || tags.contains "pressure-cooker" then "Instant Pot Cooking"
  else if tags.contains "meal-prep" || tags.contains "batch-cooking" then "Meal Prep"
  else if tags.contains "one-pot" || tags.contains "sheet-pan" then "One-Pot Meals"
  else if tags.contains "gluten-free" || tags.contains "dairy-free" then "Allergen-Free Cooking"
  else if tags.contains "fermentation" || tags.contains "pickling" then "Fermentation"
  else if tags.contains "smoking" || tags.contains "bbq" then "Smoking & BBQ"
  else if 4.5 ≤ avg then "Highly Rated"
  else if 10 ≤ eng then "Popular"
  else if days ≤ 7 then "New & Trending"
  else "Recently Added"

/-- The `{ trend, score }` pair returned by `calculateTrendScore`. -/
structure TrendScore where
  trend : String
  score : ℚ
  deriving Repr, DecidableEq

/-- `AiService.calculateTrendScore`:
`(recencyScore * 0.4) + (ratingScore * 0.3) + (engagementScore * 0.3)`
with `ratingScore = avgRating / 5`, plus the trend category. -/
def calculateTrendScore (now : ℚ) (r : Recipe) : TrendScore :=
  let days := daysSinceCreated now r.createdAt
  let avg := avgRating r
  let eng := engagementScore r
  { trend := determineTrendCategory r avg eng days
    score := recencyScore now r * 0.4 + (avg / 5) * 0.3 + eng * 0.3 }

/-- A trending-recipes result row (the projection returned after the score
used for ranking is stripped; nullable fields defaulted as in the source). -/
structure TrendingRecipe where
  title : String
  description : String
  trend : String
  difficulty : String
  prepTime : Nat
  cookTime : Nat
  deriving Repr, DecidableEq

/-- The per-candidate projection of the final `.map` in
`getTrendingRecipes` (difficulty upper-cased, `description || ''`,
`prepTime || 0`, `cookTime || 0`). -/
def toTrendingRecipe (now : ℚ) (r : Recipe) : TrendingRecipe :=
  { title := r.title
    description := r.description
    trend := (calculateTrendScore now r).trend
    difficulty := strToUpper r.difficulty
    prepTime := r.prepTime.getD 0
    cookTime := r.cookTime.getD 0 }

/-- The input-validation rejection of `getTrendingRecipes`. -/
inductive TrendError
  | badRequest
  deriving Repr, DecidableEq

/-- The candidate superset fetched by `getTrendingRecipes`: the
`Math.min(limit * 3, 100)` most-recently-created recipes
(`orderBy createdAt desc`; the `findMany` has NO `where` clause, so
private recipes are fetched too). -/
def trendingCandidates (db : List Recipe) (limit : Nat) : List Recipe :=
  (sortDesc (fun r => r.createdAt) db).take (min (limit * 3) 100)

/-- `AiService.getTrendingRecipes`: validate `limit` (`validateInput`
rejects a falsy `limit`, the explicit check rejects `limit <= 0 || limit > 50`
— both as HTTP 400), fetch the candidates, return `[]` when there are
none, else score, sort by score descending, take the top `limit` and
project.  The outer `catch` (Primary Store unreachable → `[]`) is outside
this model: the store is the given `db`. -/
def getTrendingRecipes (now : ℚ) (db : List Recipe) (limit : Int) :
    Except TrendError (List TrendingRecipe) :=
  if limit ≤ 0 || 50 < limit then .error .badRequest
  else
    let recipes := trendingCandidates db limit.toNat
    if recipes.isEmpty then .ok []
    else
      .ok (((sortDesc (fun r => (calculateTrendScore now r).score) recipes).take
        limit.toNat).map (toTrendingRecipe now))

/-! ## Spec-side description of the trend-label priority order -/

/-- First-matching-rule dispatch over an ordered `(condition, label)` list,
with a default label when no rule matches. -/
def firstMatching (dflt : String) : List (Bool × String) → String
  | [] => dflt
  | (c, l) :: rest => if c then l else firstMatching dflt rest

/-- The documented trend-label priority order, written from the spec's
rule list (§4.3): the ten tag rules first, then the `avgRating`,
`engagement` and recency rules. -/
def specTrendRules (r : Recipe) (avg eng days : ℚ) : List (Bool × String) :=
  [ (r.tags.contains "air-fryer" || r.tags.contains "air-frying", "Air Frying"),
    (r.tags.contains "sourdough" || r.tags.contains "fermentation", "Sourdough Baking"),
    (r.tags.contains "plant-based" || r.tags.contains "vegan", "Plant-Based Cooking"),
    (r.tags.contains "keto" || r.tags.contains "low-carb", "Keto Diet"),
    (r.tags.contains "instant-pot" || r.tags.contains "pressure-cooker", "Instant Pot Cooking"),
    (r.tags.contains "meal-prep" || r.tags.contains "batch-cooking", "Meal Prep"),
    (r.tags.contains "one-pot" || r.tags.contains "sheet-pan", "One-Pot Meals"),
    (r.tags.contains "gluten-free" || r.tags.contains "dairy-free", "Allergen-Free Cooking"),
    (r.tags.contains "fermentation" || r.tags.contains "pickling", "Fermentation"),
    (r.tags.contains "smoking" || r.tags.contains "bbq", "Smoking & BBQ"),
    (decide (4.5 ≤ avg), "Highly Rated"),
    (decide (10 ≤ eng), "Popular"),
    (decide (days ≤ 7), "New & Trending") ]

/-- The spec's label function: first matching rule, else "Recently Added". -/
def specTrendLabel (r : Recipe) (avg eng days : ℚ) : String :=
  firstMatching "Recently Added" (specTrendRules r avg eng days)

/-! ## Concrete fixtures used by witnesses and counterexamples -/

/-- The spec's concrete scenario recipe (§8.6). -/
def carbonara : Recipe :=
  { id := "r1"
    title := "Spaghetti Carbonara"
    description := "Classic Roman pasta"
    ingredients := [⟨"pasta"⟩, ⟨"eggs"⟩, ⟨"pancetta"⟩]
    instructions := ["Boil pasta", "Mix eggs"]
    tags := []
    difficulty := "medium"
    cuisine := some "italian"
    prepTime := some 10
    cookTime := some 20
    servings := some 2
    authorId := "u1"
    isPublic := true
    createdAt := 0
    ratings := []
    commentsCount := 0 }

/-- The indexed document of the scenario recipe. -/
def carbonaraDoc : EsDoc := recipeToDoc carbonara

/-- A minimal public recipe. -/
def publicRecipe : Recipe :=
  { id := "p1"
    title := "Toast"
    description := "Bread, toasted"
    ingredients := [⟨"bread"⟩]
    instructions := ["Toast it"]
    tags := []
    difficulty := "easy"
    cuisine := none
    prepTime := some 5
    cookTime := some 10
    servings := some 1
    authorId := "u2"
    isPublic := true
    createdAt := 0
    ratings := []
    commentsCount := 0 }

/-- A private (`isPublic = false`) recipe. -/
def privateRecipe : Recipe :=
  { id := "s1"
    title := "Secret Cake"
    description := "hidden"
    ingredients := [⟨"flour"⟩]
    instructions := ["Bake"]
    tags := []
    difficulty := "easy"
    cuisine := none
    prepTime := some 5
    cookTime := some 10
    servings := some 4
    authorId := "u3"
    isPublic := false
    createdAt := 0
    ratings := []
    commentsCount := 0 }

/-- A recipe tagged `["vegan", "keto"]`. -/
def veganKetoRecipe : Recipe :=
  { id := "v1"
    title := "Vegan Keto Bowl"
    description := "A bowl"
    ingredients := [⟨"avocado"⟩]
    instructions := ["Assemble"]
    tags := ["vegan", "keto"]
    difficulty := "easy"
    cuisine := none
    prepTime := some 10
    cookTime := some 0
    servings := some 1
    authorId := "u4"
    isPublic := true
    createdAt := 0
    ratings := [5, 5]
    commentsCount := 0 }

/-- A candidate recipe created at millisecond timestamp `86400000`. -/
def newerRecipe : Recipe :=
  { id := "n1"
    title := "Same Soup"
    description := "Soup"
    ingredients := [⟨"water"⟩]
    instructions := ["Boil"]
    tags := []
    difficulty := "easy"
    cuisine := none
    prepTime := some 5
    cookTime := some 30
    servings := some 2
    authorId := "u5"
    isPublic := true
    createdAt := 86400000
    ratings := [4]
    commentsCount := 2 }

/-- The same candidate as `newerRecipe` except created at timestamp `0`. -/
def olderRecipe : Recipe :=
  { newerRecipe with id := "n2", createdAt := 0 }

/-! ## Helper lemmas -/

theorem mem_insertDesc (key : α → ℚ) (x : α) (l : List α) (a : α) :
    a ∈ insertDesc key x l ↔ a = x ∨ a ∈ l := by
  induction l with
  | nil => simp [insertDesc]
  | cons y t ih =>
    by_cases h : key y < key x
    · simp [insertDesc, h]
    · simp [insertDesc, h, ih]
      tauto

theorem mem_sortDesc (key : α → ℚ) (l : List α) (a : α) :
    a ∈ sortDesc key l ↔ a ∈ l := by
  induction l with
  | nil => simp [sortDesc]
  | cons x t ih => simp [sortDesc, mem_insertDesc, ih]

theorem esQuery_isPublic {q : String} {f : SearchFilters} {d : EsDoc}
    (h : esQuery q f d = true) : d.isPublic = true := by
  simp only [esQuery, esMust, Bool.and_eq_true] at h
  exact h.1.2

theorem dbWhere_isPublic {q : String} {f : SearchFilters} {r : Recipe}
    (h : dbWhere q f r = true) : r.isPublic = true := by
  simp only [dbWhere, Bool.and_eq_true] at h
  exact h.1.1.1.1.1.1.1

theorem formatRecipe_isPublic (r : Recipe) : (formatRecipe r).isPublic = r.isPublic := rfl

theorem esHitToItem_isPublic (d : EsDoc) : (esHitToItem d).isPublic = d.isPublic := rfl

/-! ## Claims -/

/-- C1: for every queryText, filters, skip and take, if the index-backend
call raises any error, `searchRecipes` does not propagate it: it returns
exactly the equivalent Primary-Store query's `{items, total}` result
(case-insensitive substring match on title/description, same structured
filters); likewise `searchByIngredients` returns its Primary-Store
fallback result. -/
theorem search_error_never_propagates (e : String) (db : List Recipe) (q : String)
    (f : SearchFilters) (ings : List String) (skip take : Nat) :
    searchRecipes (.error e) db q f skip take = searchRecipesInDatabase db q f skip take ∧
    searchByIngredients (.error e) db ings skip take =
      { items := (((dbIngMatches ings db).drop skip).take take).map formatRecipe
        total := (dbIngMatches ings db).length } :=
  ⟨rfl, rfl⟩

/-- C2: every item returned by `searchRecipes` and `searchByIngredients`
— on the index path and on the database fallback path alike — has
`isPublic = true`, whatever filters the caller supplies. -/
theorem search_items_always_public (es : Except String (List EsDoc)) (db : List Recipe)
    (q : String) (f : SearchFilters) (ings : List String) (skip take : Nat) :
    (∀ it ∈ (searchRecipes es db q f skip take).items, it.isPublic = true) ∧
    (∀ it ∈ (searchByIngredients es db ings skip take).items, it.isPublic = true) := by
  constructor
  · intro it hit
    cases es with
    | ok idx =>
      simp only [searchRecipes, List.mem_map] at hit
      obtain ⟨d, hd, rfl⟩ := hit
      have hd2 : d ∈ esMatches q f idx := List.drop_subset _ _ (List.take_subset _ _ hd)
      have hq := (List.mem_filter.mp hd2).2
      simpa [esHitToItem_isPublic] using esQuery_isPublic hq
    | error e =>
      simp only [searchRecipes, searchRecipesInDatabase, List.mem_map] at hit
      obtain ⟨r, hr, rfl⟩ := hit
      have hr2 : r ∈ dbMatches q f db := List.drop_subset _ _ (List.take_subset _ _ hr)
      have hw := (List.mem_filter.mp hr2).2
      simpa [formatRecipe_isPublic] using dbWhere_isPublic hw
  · intro it hit
    cases es with
    | ok idx =>
      simp only [searchByIngredients, List.mem_map] at hit
      obtain ⟨d, hd, rfl⟩ := hit
      have hd2 : d ∈ idx.filter (esIngQuery ings) :=
        List.drop_subset _ _ (List.take_subset _ _ hd)
      have hq := (List.mem_filter.mp hd2).2
      simp only [esIngQuery, Bool.and_eq_true] at hq
      simpa [esHitToItem_isPublic] using hq.1
    | error e =>
      simp only [searchByIngredients, List.mem_map] at hit
      obtain ⟨r, hr, rfl⟩ := hit
      have hr2 : r ∈ dbIngMatches ings db := List.drop_subset _ _ (List.take_subset _ _ hr)
      have hw := (List.mem_filter.mp hr2).2
      simp only [Bool.and_eq_true] at hw
      simpa [formatRecipe_isPublic] using hw.1

/-- Witness for C2: a concrete public indexed document is returned and is
public. -/
theorem search_items_always_public_witness :
    (esHitToItem carbonaraDoc).isPublic = true :=
  (search_items_always_public (.ok [carbonaraDoc]) [] "" {} [] 0 10).1
    (esHitToItem carbonaraDoc) (by decide)

/-- Counterexample to C3: with 51 matching public recipes and a requested
`take` of 1000, the database fallback path returns more than 50 items —
the server-side clamp is applied only on the index path. -/
theorem search_take_clamp_counterexample :
    50 < (searchRecipes (.error "index down") (List.replicate 51 publicRecipe)
      "" {} 0 1000).items.length := by
  decide

/-- C3 (amended): the index path serves at most `min(take, 50) ≤ 50` items;
the database fallback path passes `take` through unclamped, serving up to
`take` items; on both paths `total` is the true match count, not the page
size. -/
theorem search_take_clamped_on_index_path_only (idx : List EsDoc) (e : String)
    (db : List Recipe) (q : String) (f : SearchFilters) (skip take : Nat) :
    (searchRecipes (.ok idx) db q f skip take).items.length ≤ 50 ∧
    (searchRecipes (.ok idx) db q f skip take).total = (esMatches q f idx).length ∧
    (searchRecipes (.error e) db q f skip take).items.length ≤ take ∧
    (searchRecipes (.error e) db q f skip take).total = (dbMatches q f db).length := by
  refine ⟨?_, rfl, ?_, rfl⟩
  · simp only [searchRecipes, List.length_map, List.length_take]
    omega
  · simp only [searchRecipes, searchRecipesInDatabase, List.length_map, List.length_take]
    omega

/-- C4: `calculateTrendScore` computes exactly
`0.4 * recencyScore + 0.3 * (avgRating / 5) + 0.3 * engagement` with
`recencyScore = max(0, 30 - daysSinceCreated) / 30` (never negative),
`avgRating` the mean rating value (`0` with no ratings), and `engagement`
the raw count of ratings plus comments. -/
theorem trend_score_formula (now : ℚ) (r : Recipe) :
    (calculateTrendScore now r).score =
      0.4 * (max 0 (30 - daysSinceCreated now r.createdAt) / 30) +
      0.3 * ((if r.ratings.isEmpty then 0 else r.ratings.sum / (r.ratings.length : ℚ)) / 5) +
      0.3 * ((r.ratings.length : ℚ) + (r.commentsCount : ℚ)) ∧
    0 ≤ recencyScore now r := by
  constructor
  · simp only [calculateTrendScore, recencyScore, avgRating, engagementScore]
    ring
  · exact div_nonneg (le_max_left 0 _) (by norm_num)

/-- C5 (code bug): after the recipe-deletion mutation
(`RecipesService.remove`) succeeds, the indexed document is NOT removed —
the mutation never calls `SearchService.deleteRecipe` — so a search for
text unique to the deleted recipe's title still returns it on the index
path (`total = 1`), while the fallback path correctly no longer finds it. -/
theorem delete_mutation_leaves_index_stale :
    RecipesService.remove { db := [carbonara], idx := [carbonaraDoc] } "r1" "u1" =
      .ok ({ db := [], idx := [carbonaraDoc] }, true) ∧
    (searchRecipes (.ok [carbonaraDoc]) [] "carbonara" {} 0 10).items =
      [esHitToItem carbonaraDoc] ∧
    (searchRecipes (.ok [carbonaraDoc]) [] "carbonara" {} 0 10).total = 1 ∧
    (searchRecipes (.error "fallback") [] "carbonara" {} 0 10).total = 0 := by
  refine ⟨rfl, by decide, by decide, rfl⟩

/-- Counterexample to C6: the candidate fetch has no `isPublic` filter —
with a primary store holding only a private recipe, `getTrending` still
ranks and returns it, so the candidate superset is not restricted to
public recipes as claimed. -/
theorem trending_candidates_not_public_counterexample :
    privateRecipe.isPublic = false ∧
    (getTrendingRecipes 0 [privateRecipe] 1).toOption =
      some [{ title := "Secret Cake", description := "hidden", trend := "New & Trending",
              difficulty := "EASY", prepTime := 5, cookTime := 10 }] := by
  refine ⟨rfl, ?_⟩
  norm_num [getTrendingRecipes, trendingCandidates, sortDesc, insertDesc,
    calculateTrendScore, determineTrendCategory, avgRating, engagementScore,
    daysSinceCreated, recencyScore, toTrendingRecipe, privateRecipe, strToUpper,
    Except.toOption]
  decide

/-- C6 (amended): for every limit in [1, 50], `getTrending` fetches as its
candidate superset the `min(limit * 3, 100)` most-recently-created recipes
— public and private alike, since no `isPublic` filter is applied — each
with its ratings and comments, and only recipes from this candidate set
can appear in the result. -/
theorem trending_result_from_candidates (now : ℚ) (db : List Recipe) (limit : Int)
    (h1 : 1 ≤ limit) (h2 : limit ≤ 50) :
    ∃ items, getTrendingRecipes now db limit = .ok items ∧
      ∀ it ∈ items, ∃ r ∈ trendingCandidates db limit.toNat, it = toTrendingRecipe now r := by
  unfold getTrendingRecipes
  split
  · rename_i hcond
    exfalso
    simp only [Bool.or_eq_true, decide_eq_true_eq] at hcond
    omega
  · dsimp only
    split
    · exact ⟨[], rfl, by simp⟩
    · refine ⟨_, rfl, ?_⟩
      intro it hit
      simp only [List.mem_map] at hit
      obtain ⟨r, hr, rfl⟩ := hit
      exact ⟨r, (mem_sortDesc _ _ _).mp (List.take_subset _ _ hr), rfl⟩

/-- Witness for C6 (amended): at `limit = 1` on a one-recipe store. -/
theorem trending_result_from_candidates_witness :
    ∃ items, getTrendingRecipes 0 [publicRecipe] 1 = .ok items ∧
      ∀ it ∈ items, ∃ r ∈ trendingCandidates [publicRecipe] (Int.toNat 1),
        it = toTrendingRecipe 0 r :=
  trending_result_from_candidates 0 [publicRecipe] 1 (by decide) (by decide)

/-- C7: the trend label is chosen by the first matching rule in the
documented priority order (the ten tag rules, then avgRating, engagement,
recency, then the default); in particular every recipe tagged
`["vegan", "keto"]` gets "Plant-Based Cooking" whatever its avgRating —
the plant-based tag rule precedes both the keto tag rule and the
"Highly Rated" rule. -/
theorem trend_label_first_matching_rule (r : Recipe) (avg eng days : ℚ) :
    determineTrendCategory r avg eng days = specTrendLabel r avg eng days ∧
    (r.tags = ["vegan", "keto"] →
      determineTrendCategory r avg eng days = "Plant-Based Cooking") := by
  constructor
  · simp only [determineTrendCategory, specTrendLabel, specTrendRules, firstMatching,
      decide_eq_true_eq]
  · intro h
    simp [determineTrendCategory, h]

/-- Witness for C7: a concrete `["vegan", "keto"]` recipe with
`avgRating = 5.0` is labelled "Plant-Based Cooking". -/
theorem trend_label_first_matching_rule_witness :
    determineTrendCategory veganKetoRecipe 5 2 0 = "Plant-Based Cooking" :=
  (trend_label_first_matching_rule veganKetoRecipe 5 2 0).2 rfl

/-- Counterexample to C8: deleting an id with no indexed document is not a
no-op — the backend's not-found error is rethrown to the caller. -/
theorem deleteRecipe_notFound_counterexample :
    deleteRecipe [] "missing" = .error .notFound := rfl

/-- C8 (amended): for every id with no indexed document, `deleteRecipe`
propagates the backend's not-found error to its caller (the `catch` block
logs and rethrows), rather than treating the deletion as a no-op. -/
theorem deleteRecipe_missing_id_propagates (idx : List EsDoc) (id : String)
    (h : ∀ d ∈ idx, d.id ≠ id) :
    deleteRecipe idx id = .error .notFound := by
  have hany : idx.any (fun d => d.id == id) = false := by
    simp only [List.any_eq_false, beq_iff_eq]
    exact h
  simp [deleteRecipe, esDelete, hany]

/-- Witness for C8 (amended): a non-empty index without the target id. -/
theorem deleteRecipe_missing_id_propagates_witness :
    deleteRecipe [carbonaraDoc] "nope" = .error .notFound :=
  deleteRecipe_missing_id_propagates [carbonaraDoc] "nope" (by decide)

/-- C9: of two candidate recipes identical in ratings and comment count
and differing only in creation time, the more recently created one has
`recencyScore` ≥ the older one's, and hence `trendScore` ≥ the older
one's. -/
theorem trend_monotone_in_recency (now : ℚ) (rNew rOld : Recipe)
    (hrat : rNew.ratings = rOld.ratings)
    (hcom : rNew.commentsCount = rOld.commentsCount)
    (hage : rOld.createdAt ≤ rNew.createdAt) :
    recencyScore now rOld ≤ recencyScore now rNew ∧
    (calculateTrendScore now rOld).score ≤ (calculateTrendScore now rNew).score := by
  have hdays : daysSinceCreated now rNew.createdAt ≤ daysSinceCreated now rOld.createdAt := by
    unfold daysSinceCreated
    have h24 : (0 : ℚ) < 1000 * 60 * 60 * 24 := by norm_num
    rw [div_le_div_iff₀ h24 h24]
    nlinarith
  have hrec : recencyScore now rOld ≤ recencyScore now rNew := by
    unfold recencyScore
    have hmax : max 0 (30 - daysSinceCreated now rOld.createdAt) ≤
        max 0 (30 - daysSinceCreated now rNew.createdAt) :=
      max_le_max le_rfl (by linarith)
    linarith
  have havg : avgRating rOld = avgRating rNew := by
    unfold avgRating
    rw [hrat]
  have heng : engagementScore rOld = engagementScore rNew := by
    unfold engagementScore
    rw [hrat, hcom]
  refine ⟨hrec, ?_⟩
  simp only [calculateTrendScore]
  rw [havg, heng]
  have h04 : (0 : ℚ) < 0.4 := by norm_num
  nlinarith [hrec]

/-- Witness for C9: the same soup created a day apart. -/
theorem trend_monotone_in_recency_witness :
    recencyScore 86400000 olderRecipe ≤ recencyScore 86400000 newerRecipe ∧
    (calculateTrendScore 86400000 olderRecipe).score ≤
      (calculateTrendScore 86400000 newerRecipe).score :=
  trend_monotone_in_recency 86400000 newerRecipe olderRecipe rfl rfl (by decide)

/-- C10: the `minRating` field of the filter object is accepted but never
applied — two filter objects agreeing on everything except `minRating`
yield identical search results on the index path, on the database
fallback path, and from the fallback query directly. -/
theorem search_ignores_minRating (es : Except String (List EsDoc)) (db : List Recipe)
    (q : String) (f : SearchFilters) (m1 m2 : Option ℚ) (skip take : Nat) :
    searchRecipes es db q { f with minRating := m1 } skip take
      = searchRecipes es db q { f with minRating := m2 } skip take ∧
    searchRecipesInDatabase db q { f with minRating := m1 } skip take
      = searchRecipesInDatabase db q { f with minRating := m2 } skip take := by
  constructor
  · cases es <;> rfl
  · rfl

end CookBook
